import Mathlib

/-!
Verification of `src/database/import-google-buildings.py` and
`src/database/generate-regions.py` (community_address repository).

The Python source is shallowly embedded: pure functions become Lean
functions, the database connection becomes an explicit state value
threaded through the insert functions, exceptions become `Except` /
`Option` results, and Python floats are modelled as rationals.  External
capabilities (the PostGIS geometry parser, the s2sphere covering
library, the trigonometric primitives of `math`) are parameters of the
embedded functions.
-/

namespace GoogleBuildings

/-- A country bounding box, as the `bounds` dict of `countries.json`
(fields `min_lat`, `max_lat`, `min_lon`, `max_lon`). -/
structure Bounds where
  min_lat : ℚ
  max_lat : ℚ
  min_lon : ℚ
  max_lon : ℚ
deriving DecidableEq, Repr

/-- `is_in_bounds` (import-google-buildings.py, lines 144-147):
`bounds['min_lat'] <= lat <= bounds['max_lat'] and bounds['min_lon'] <= lon <= bounds['max_lon']`. -/
def is_in_bounds (lat lon : ℚ) (bounds : Bounds) : Bool :=
  decide (bounds.min_lat ≤ lat ∧ lat ≤ bounds.max_lat ∧
          bounds.min_lon ≤ lon ∧ lon ≤ bounds.max_lon)

/-- One raw CSV cell as seen by `float(...)`: empty string, a string
that parses as a float, or a malformed string (raises `ValueError`). -/
inductive CsvField where
  | empty
  | num (q : ℚ)
  | bad
deriving DecidableEq, Repr

/-- One raw CSV row of a shard, with the columns the script reads
(`latitude`, `longitude`, `area_in_meters`, `confidence`, `geometry`,
`full_plus_code`).  `csv.DictReader` rows always carry every header
column, so the fields are total. -/
structure Row where
  latitude : CsvField
  longitude : CsvField
  area_in_meters : CsvField
  confidence : CsvField
  geometry : String
  full_plus_code : String
deriving DecidableEq, Repr

/-- `float(s)` on a required field: `none` models the `ValueError`
raised on an empty or malformed string. -/
def floatParse : CsvField → Option ℚ
  | .num q => some q
  | _ => none

/-- `float(row[k]) if row[k] else None` on an optional field
(`area_in_meters`, `confidence`): an empty cell yields `None`, a
malformed non-empty cell raises `ValueError` (modelled `none`). -/
def optFloatParse : CsvField → Option (Option ℚ)
  | .empty => some none
  | .num q => some (some q)
  | .bad => none

/-- The tuple appended to `batch` (line 206):
`(geometry, plus_code, confidence, area)`. -/
structure Record where
  geometry : String
  plus_code : String
  confidence : Option ℚ
  area : Option ℚ
deriving DecidableEq, Repr

/-- Outcome of the per-row body of the reader loop of `import_csv_file`
(lines 187-217): either the row is appended to the current batch as a
`Record`, or it is counted in `skipped` (bad parse, out of bounds, or
empty geometry). -/
inductive RowOutcome where
  | keep (r : Record)
  | skip
deriving DecidableEq, Repr

/-- The per-row body of `import_csv_file`'s reader loop (lines 187-217),
in source order: parse latitude, parse longitude, bounds check, parse
area, parse confidence, empty-geometry check; any failure gives `skip`
via the `except (ValueError, KeyError)` handler or an explicit
`skipped += 1; continue`. -/
def classifyRow (bounds : Bounds) (row : Row) : RowOutcome :=
  match floatParse row.latitude with
  | none => .skip
  | some lat =>
    match floatParse row.longitude with
    | none => .skip
    | some lon =>
      if ¬ is_in_bounds lat lon bounds then .skip
      else
        match optFloatParse row.area_in_meters with
        | none => .skip
        | some area =>
          match optFloatParse row.confidence with
          | none => .skip
          | some confidence =>
            if row.geometry = "" then .skip
            else .keep ⟨row.geometry, row.full_plus_code, confidence, area⟩

/-- The committed `buildings` rows contributed by this pipeline, in
insertion order.  The pre-existing OSM rows use a different source and,
per the data model, a source-specific dedup key, so they never conflict
with these inserts and are left out of the state. -/
abbrev DB := List Record

/-- Modelled from the spec: the uniqueness constraint backing
`ON CONFLICT DO NOTHING` lives in the migration file
`migrations/002_multi_source_buildings.sql`, which is not under `src/`.
Per §3 the dedup identity key is source-specific; within this pipeline
the source is the constant `'google'`, so the key reduces to the
external identifier (the plus code). -/
def dbHasKey (db : DB) (k : String) : Bool :=
  db.any (fun r => r.plus_code == k)

/-- One `INSERT ... ON CONFLICT DO NOTHING` of a single record whose
geometry the database accepts: a conflicting key inserts nothing
(`rowcount = 0`), otherwise the row is appended (`rowcount = 1`).
`geomOk` is the external PostGIS `ST_GeomFromText` capability: `false`
means the statement raises. -/
def insertOne (db : DB) (r : Record) : DB × ℕ :=
  if dbHasKey db r.plus_code then (db, 0) else (db ++ [r], 1)

/-- One iteration of the per-record fallback loop of `insert_batch`
(lines 254-265): try the single-row insert, commit on success, and on
exception roll back and continue (the running count and the database
are unchanged). -/
def fallbackStep (geomOk : String → Bool) (st : DB × ℕ) (r : Record) : DB × ℕ :=
  if geomOk r.geometry then
    let (db', n) := insertOne st.1 r
    (db', st.2 + n)
  else st

/-- The set-based insert of `insert_batch` (lines 236-249):
`execute_values` with `ON CONFLICT DO NOTHING`.  It raises (`none`)
as soon as any geometry in the batch is malformed — the whole
statement is poisoned — and otherwise inserts the batch row by row
under the uniqueness constraint.  The returned count idealizes
`cur.rowcount` (line 247) as the total number of rows inserted across
the batch; for batches larger than `page_size=1000` the real
`cur.rowcount` reflects only the last page, so the real count can
under-report a successful large batch.  (On an all-conflict re-run
every page affects 0 rows, so the count 0 is exact either way.) -/
def bulkInsert (geomOk : String → Bool) (db : DB) (batch : List Record) :
    Option (DB × ℕ) :=
  if batch.all (fun r => geomOk r.geometry) then
    some (batch.foldl (fun st r => let (db', n) := insertOne st.1 r; (db', st.2 + n))
            (db, 0))
  else none

/-- `insert_batch` (lines 226-266): empty batch returns 0; otherwise
attempt the bulk insert and commit; on exception roll back (the
database reverts to its pre-batch state) and fall back to individual
inserts, committing per record and rolling back each failed record. -/
def insert_batch (geomOk : String → Bool) (db : DB) (batch : List Record) :
    DB × ℕ :=
  if batch.isEmpty then (db, 0)
  else
    match bulkInsert geomOk db batch with
    | some res => res
    | none => batch.foldl (fallbackStep geomOk) (db, 0)

/-- The reader loop of `import_csv_file` (lines 186-223), with the
mutable state (`batch`, `imported`, `skipped`) passed explicitly.  A
kept record joins the batch; a full batch (`len(batch) >= batch_size`)
is flushed through `insert_batch`; the final partial batch is flushed
after the loop (`if batch:`). -/
def importLoop (geomOk : String → Bool) (bounds : Bounds) (batchSize : ℕ)
    (db : DB) (rows : List Row) (batch : List Record)
    (imported skipped : ℕ) : DB × ℕ × ℕ :=
  match rows with
  | [] =>
    if batch.isEmpty then (db, imported, skipped)
    else
      let (db', n) := insert_batch geomOk db batch
      (db', imported + n, skipped)
  | row :: rest =>
    match classifyRow bounds row with
    | .skip => importLoop geomOk bounds batchSize db rest batch imported (skipped + 1)
    | .keep rec =>
      let batch' := batch ++ [rec]
      if batchSize ≤ batch'.length then
        let (db', n) := insert_batch geomOk db batch'
        importLoop geomOk bounds batchSize db' rest [] (imported + n) skipped
      else
        importLoop geomOk bounds batchSize db rest batch' imported skipped

/-- The decompressed content of one downloaded shard: either
`gzip.open` / the streaming reads raise a whole-file decompression
error, or the file yields a list of CSV rows. -/
inductive ShardData where
  | corrupt
  | rows (rs : List Row)

/-- The error taxonomy of the script, as raised exceptions:
`ValueError` for an unknown country (lines 102-106), `RuntimeError`
for the missing s2sphere capability (lines 112-115), and the gzip
decompression error for a corrupt shard (line 183). -/
inductive ImportError where
  | unknownCountry (code : String)
  | missingCapability
  | corruptShard
deriving DecidableEq, Repr

/-- `import_csv_file` (lines 175-223): opening a corrupt shard raises
out of the function (there is no handler around the `gzip.open`
stream); otherwise the reader loop runs to completion and the function
returns `(imported, skipped)`, with the connection state threaded. -/
def import_csv_file (geomOk : String → Bool) (db : DB) (shard : ShardData)
    (bounds : Bounds) (batchSize : ℕ) : Except ImportError (DB × ℕ × ℕ) :=
  match shard with
  | .corrupt => .error .corruptShard
  | .rows rs => .ok (importLoop geomOk bounds batchSize db rs [] 0 0)

/-- One entry of `downloaded_files` as seen by the import loop of
`main` (lines 388-396): whether the scratch file is present, its
`stat().st_size`, and what decompressing it yields. -/
structure ShardFile where
  present : Bool
  size : ℕ
  data : ShardData

/-- The import loop of `main` (lines 385-396): for each downloaded
file, skip it if missing or empty, otherwise run `import_csv_file` and
accumulate the totals.  The loop body has no exception handler, so an
error raised by `import_csv_file` propagates and aborts the whole
country run, discarding the totals. -/
def mainImportFiles (geomOk : String → Bool) (bounds : Bounds)
    (db : DB) (files : List ShardFile) : Except ImportError (DB × ℕ × ℕ) :=
  match files with
  | [] => .ok (db, 0, 0)
  | f :: rest =>
    if f.present = false ∨ f.size = 0 then mainImportFiles geomOk bounds db rest
    else
      match import_csv_file geomOk db f.data bounds 5000 with
      | .error e => .error e
      | .ok (db', i, s) =>
        match mainImportFiles geomOk bounds db' rest with
        | .error e => .error e
        | .ok (db'', ti, ts) => .ok (db'', i + ti, s + ts)

/-- `compute_s2_cells_for_bounds` (lines 70-90).  `hasS2` is the
module-level `HAS_S2SPHERE` flag; `cover` is the external s2sphere
pipeline (`LatLngRect.from_point_pair` + `RegionCoverer` pinned to the
given level with `max_cells = 500`, token-encoded), applied to the
bounding box and level.  Without the library the function returns `[]`;
with it, it returns whatever covering the library produces — there is
no degeneracy check and no failure path of its own. -/
def compute_s2_cells_for_bounds (hasS2 : Bool)
    (cover : Bounds → ℕ → List String) (bounds : Bounds) (level : ℕ := 4) :
    List String :=
  if ¬ hasS2 then []
  else cover bounds level

/-- One `countries.json` entry: `{name, bounds}`.  The JSON file itself
is data outside `src/`, so configurations are passed in. -/
structure CountryEntry where
  name : String
  bounds : Bounds
deriving DecidableEq, Repr

/-- The resolved configuration returned by `get_country_config`:
the entry's fields plus the freshly computed `s2_cells`. -/
structure CountryConfig where
  name : String
  bounds : Bounds
  s2_cells : List String

/-- Python's `str.upper()` on a country code, as character-wise
uppercasing (the codes in play are ASCII). -/
def pyUpper (s : String) : String := String.mk (s.data.map Char.toUpper)

/-- `get_country_config` (lines 93-118), with the parsed
`countries.json` mapping passed in: upper-case the code, fail with
`ValueError` (UnknownCountry) when absent, fail with `RuntimeError`
(MissingCapability) when s2sphere is unavailable, and otherwise attach
the dynamically computed cells. -/
def get_country_config (hasS2 : Bool) (cover : Bounds → ℕ → List String)
    (configs : List (String × CountryEntry)) (country_code : String) :
    Except ImportError CountryConfig :=
  let code := pyUpper country_code
  match configs.lookup code with
  | none => .error (.unknownCountry code)
  | some entry =>
    if ¬ hasS2 then .error .missingCapability
    else .ok ⟨entry.name, entry.bounds,
              compute_s2_cells_for_bounds hasS2 cover entry.bounds⟩

/-- The local scratch file of one shard: whether the path exists and
the bytes it holds (`stat().st_size` is the byte count). -/
structure ScratchFile where
  present : Bool
  content : List ℕ
deriving DecidableEq, Repr

/-- What the network does for one `requests.get` of a shard URL:
a 404, an exception before any body byte is written (connection error,
timeout, or a non-404 error status via `raise_for_status`), or a body
streamed as chunks — optionally dying with an exception after `k`
chunks were already written to disk. -/
inductive NetResult where
  | notFound
  | connError
  | httpError
  | body (chunks : List (List ℕ)) (failAfter : Option ℕ)
deriving DecidableEq, Repr

/-- The outcome of `download_file`: its boolean return value, the
scratch file left on disk, and whether the network was touched at all. -/
structure DownloadResult where
  success : Bool
  file : ScratchFile
  networkAccessed : Bool
deriving DecidableEq, Repr

/-- `download_file` (lines 121-141): if the destination exists and is
non-empty, return `True` without touching the network.  Otherwise GET
the URL: 404 returns `False`; an error status or exception before the
body returns `False` with the file untouched; a streamed body is
written chunk by chunk over the (truncated) file, and an exception
mid-stream is caught and returns `False`, leaving the partially
written chunks on disk. -/
def download_file (dest : ScratchFile) (net : NetResult) : DownloadResult :=
  if dest.present ∧ 0 < dest.content.length then
    ⟨true, dest, false⟩
  else
    match net with
    | .notFound => ⟨false, dest, true⟩
    | .connError => ⟨false, dest, true⟩
    | .httpError => ⟨false, dest, true⟩
    | .body chunks none => ⟨true, ⟨true, chunks.flatten⟩, true⟩
    | .body chunks (some k) => ⟨false, ⟨true, (chunks.take k).flatten⟩, true⟩

/-! ### Derived views of the import loop -/

/-- The records the reader loop keeps (appends to some batch), in
stream order. -/
def keptRecords (bounds : Bounds) (rows : List Row) : List Record :=
  rows.filterMap (fun row =>
    match classifyRow bounds row with
    | .keep r => some r
    | .skip => none)

/-- The number of rows the reader loop counts in `skipped`. -/
def skipCount (bounds : Bounds) (rows : List Row) : ℕ :=
  rows.countP (fun row => classifyRow bounds row == .skip)

/-- The cumulative effect of inserting a record list one record at a
time (the common effect of the bulk path and the fallback path). -/
def insertAll (geomOk : String → Bool) (db : DB) (recs : List Record) : DB × ℕ :=
  recs.foldl (fallbackStep geomOk) (db, 0)

/-- The `(imported, skipped)` pair reported by `import_csv_file`, when
it returns at all. -/
def importCounts (geomOk : String → Bool) (db : DB) (shard : ShardData)
    (bounds : Bounds) (batchSize : ℕ) : Option (ℕ × ℕ) :=
  match import_csv_file geomOk db shard bounds batchSize with
  | .ok (_, i, s) => some (i, s)
  | .error _ => none

/-! ### Concrete fixtures -/

/-- Uganda-like test bounds: lat `[-2, 4]`, lon `[29, 35]`. -/
def testBounds : Bounds := ⟨-2, 4, 29, 35⟩

/-- A PostGIS model accepting every geometry text except the literal
`"BAD"`. -/
def geomOkExceptBAD : String → Bool := fun s => s != "BAD"

/-- A CSV row that parses, lies inside `testBounds` and has a good
geometry. -/
def rowGood : Row :=
  ⟨.num 1, .num 30, .empty, .empty, "POLYGON((0 0,1 0,1 1,0 0))", "PLUSA"⟩

/-- A CSV row that parses and lies inside `testBounds` but whose
geometry the database will reject. -/
def rowBadGeom : Row := ⟨.num 1, .num 30, .empty, .empty, "BAD", "PLUSB"⟩

/-- A CSV row that parses but lies outside `testBounds` (latitude 10). -/
def rowOutOfBounds : Row :=
  ⟨.num 10, .num 30, .empty, .empty, "POLYGON((0 0,1 0,1 1,0 0))", "PLUSC"⟩

/-- A CSV row lying exactly on two edges of `testBounds`
(latitude `-2 = min_lat`, longitude `35 = max_lon`). -/
def rowOnEdge : Row :=
  ⟨.num (-2), .num 35, .empty, .empty, "POLYGON((2 2,3 2,3 3,2 2))", "PLUSD"⟩

/-- The record kept from `rowGood`. -/
def recGood : Record := ⟨"POLYGON((0 0,1 0,1 1,0 0))", "PLUSA", none, none⟩

/-- The record kept from `rowBadGeom`. -/
def recBadGeom : Record := ⟨"BAD", "PLUSB", none, none⟩

/-- A further good record with its own key. -/
def recOther : Record := ⟨"POLYGON((2 2,3 2,3 3,2 2))", "PLUSE", none, none⟩

/-- A downloaded shard file whose decompression fails. -/
def corruptShardFile : ShardFile := ⟨true, 10, .corrupt⟩

/-- A downloaded shard file holding the single row `rowGood`. -/
def goodShardFile : ShardFile := ⟨true, 10, .rows [rowGood]⟩

/-- A degenerate bounding box: `min_lat = max_lat`. -/
def degenerateBounds : Bounds := ⟨1, 1, 5, 6⟩

/-- An s2sphere covering model returning one fixed cell token for
every rectangle. -/
def coverSingle : Bounds → ℕ → List String := fun _ _ => ["0001"]

/-- A `countries.json` entry for the test bounds. -/
def ugandaEntry : CountryEntry := ⟨"Uganda", testBounds⟩

/-- A non-empty scratch file. -/
def existingFile : ScratchFile := ⟨true, [7, 7]⟩

end GoogleBuildings

namespace GenerateRegions

/-!
Embedding of `src/database/generate-regions.py`.  The floating-point
trigonometry of `math` and Python's `round(x, 6)` are abstract numeric
capabilities over ℚ:

* `cosDeg x` stands for `math.cos(math.radians(x))`;
* `cosTurn t` / `sinTurn t` stand for `math.cos(2*math.pi*t)` /
  `math.sin(2*math.pi*t)` — the loop's angle is `2*pi*i/num_points`,
  i.e. the turn fraction `t = i/num_points`;
* `round6 x` stands for `round(x, 6)`.
-/

/-- The abstract numeric primitives used by the generator. -/
structure NumericOps where
  cosDeg : ℚ → ℚ
  cosTurn : ℚ → ℚ
  sinTurn : ℚ → ℚ
  round6 : ℚ → ℚ

/-- `km_to_degrees` (generate-regions.py, lines 72-75):
`km / (111 * cos(radians(latitude)))`. -/
def km_to_degrees (ops : NumericOps) (km : ℚ) (latitude : ℚ := 0) : ℚ :=
  km / (111 * ops.cosDeg latitude)

/-- One `[round(lon, 6), round(lat, 6)]` coordinate pair of the circle
loop (lines 85-89), at loop index `i` of `num_points`. -/
def circlePoint (ops : NumericOps) (center_lon center_lat radius_deg : ℚ)
    (num_points i : ℕ) : List ℚ :=
  [ops.round6 (center_lon + radius_deg * ops.cosTurn ((i : ℚ) / (num_points : ℚ))),
   ops.round6 (center_lat + radius_deg * ops.sinTurn ((i : ℚ) / (num_points : ℚ)) * (9 / 10))]

/-- `create_circle_polygon` (lines 78-92): `num_points` points around
the center, latitude offsets compressed by the fixed factor `0.9`,
then the first point appended again to close the ring; the result is
a one-ring polygon. -/
def create_circle_polygon (ops : NumericOps)
    (center_lon center_lat radius_km : ℚ) (num_points : ℕ := 32) :
    List (List (List ℚ)) :=
  let radius_deg := km_to_degrees ops radius_km center_lat
  let coords := (List.range num_points).map
    (circlePoint ops center_lon center_lat radius_deg num_points)
  let closed := coords ++ [coords.headI]
  [closed]

/-- The single ring of the polygon returned by `create_circle_polygon`
(the function returns `[coords]`, a polygon with one closed ring). -/
def circleRing (ops : NumericOps) (center_lon center_lat radius_km : ℚ)
    (num_points : ℕ) : List (List ℚ) :=
  (create_circle_polygon ops center_lon center_lat radius_km num_points).headI

/-- A concrete instantiation of the numeric capabilities, for
evaluating the generator on one input. -/
def idOps : NumericOps := ⟨fun q => q, fun q => q, fun q => q, fun q => q⟩

end GenerateRegions

namespace GoogleBuildings

/-! ### Lemmas about the insert folds and the reader loop -/

lemma bulk_fold_eq_fallback_fold (geomOk : String → Bool) :
    ∀ (batch : List Record) (st : DB × ℕ),
      batch.all (fun r => geomOk r.geometry) = true →
      batch.foldl (fun st r => let (db', n) := insertOne st.1 r; (db', st.2 + n)) st =
        batch.foldl (fallbackStep geomOk) st := by
  intro batch
  induction batch with
  | nil => intro st _; rfl
  | cons r t ih =>
    intro st hall
    simp only [List.all_cons, Bool.and_eq_true] at hall
    simp only [List.foldl_cons]
    rw [ih _ hall.2]
    congr 1
    simp [fallbackStep, hall.1]

/-- `insert_batch` has the same effect as inserting the batch record by
record: the bulk path is that fold when every geometry is accepted, and
the fallback path (after the rollback restores the pre-batch state) is
that fold as well. -/
lemma insert_batch_eq (geomOk : String → Bool) (db : DB) (batch : List Record) :
    insert_batch geomOk db batch = insertAll geomOk db batch := by
  unfold insert_batch bulkInsert insertAll
  by_cases hempty : batch.isEmpty
  · simp [hempty, List.isEmpty_iff.mp hempty]
  · simp only [hempty, if_false]
    by_cases hall : batch.all (fun r => geomOk r.geometry) = true
    · simp only [hall, if_true]
      exact bulk_fold_eq_fallback_fold geomOk batch (db, 0) hall
    · simp [hall]

/-- Count additivity of the fallback fold: starting the counter at `n`
just shifts the result by `n`. -/
lemma fallback_fold_shift (geomOk : String → Bool) :
    ∀ (recs : List Record) (db : DB) (n : ℕ),
      recs.foldl (fallbackStep geomOk) (db, n) =
        ((recs.foldl (fallbackStep geomOk) (db, 0)).1,
         n + (recs.foldl (fallbackStep geomOk) (db, 0)).2) := by
  intro recs
  induction recs with
  | nil => intro db n; simp
  | cons r t ih =>
    intro db n
    simp only [List.foldl_cons]
    by_cases hg : geomOk r.geometry = true
    · simp only [fallbackStep, hg, if_true]
      obtain ⟨db', m⟩ := insertOne db r
      rw [ih db' (n + m), ih db' (0 + m)]
      simp [Nat.add_assoc]
    · simp only [fallbackStep, hg, if_false]
      exact ih db n

lemma insertAll_append (geomOk : String → Bool) (db : DB) (xs ys : List Record) :
    insertAll geomOk db (xs ++ ys) =
      ((insertAll geomOk (insertAll geomOk db xs).1 ys).1,
       (insertAll geomOk db xs).2 + (insertAll geomOk (insertAll geomOk db xs).1 ys).2) := by
  unfold insertAll
  rw [List.foldl_append]
  obtain ⟨db1, n1⟩ := xs.foldl (fallbackStep geomOk) (db, 0)
  exact fallback_fold_shift geomOk ys db1 n1

/-- Master lemma for the reader loop: the final database is the
record-by-record insertion of the pending batch followed by every kept
record, `imported` grows by the rows those insertions actually added,
and `skipped` grows by the number of skip-classified rows.  Batch
boundaries do not matter. -/
lemma importLoop_spec (geomOk : String → Bool) (bounds : Bounds) (batchSize : ℕ) :
    ∀ (rows : List Row) (batch : List Record) (db : DB) (imported skipped : ℕ),
      importLoop geomOk bounds batchSize db rows batch imported skipped =
        ((insertAll geomOk db (batch ++ keptRecords bounds rows)).1,
         imported + (insertAll geomOk db (batch ++ keptRecords bounds rows)).2,
         skipped + skipCount bounds rows) := by
  intro rows
  induction rows with
  | nil =>
    intro batch db imported skipped
    simp only [keptRecords, skipCount, List.filterMap_nil, List.countP_nil,
      List.append_nil, Nat.add_zero]
    by_cases hempty : batch.isEmpty
    · simp [importLoop, hempty, List.isEmpty_iff.mp hempty, insertAll]
    · simp [importLoop, hempty, insert_batch_eq]
  | cons row rest ih =>
    intro batch db imported skipped
    rw [importLoop]
    cases hclass : classifyRow bounds row with
    | skip =>
      dsimp only
      rw [ih]
      have hkept : keptRecords bounds (row :: rest) = keptRecords bounds rest := by
        simp [keptRecords, List.filterMap_cons, hclass]
      have hskip : skipCount bounds (row :: rest) = skipCount bounds rest + 1 := by
        simp [skipCount, List.countP_cons, hclass]
      rw [hkept, hskip]
      simp only [Prod.mk.injEq, true_and]
      omega
    | keep rec =>
      dsimp only
      have hkept : keptRecords bounds (row :: rest) = rec :: keptRecords bounds rest := by
        simp [keptRecords, List.filterMap_cons, hclass]
      have hskip : skipCount bounds (row :: rest) = skipCount bounds rest := by
        simp [skipCount, List.countP_cons, hclass]
      rw [hkept, hskip]
      have harr : batch ++ rec :: keptRecords bounds rest =
          (batch ++ [rec]) ++ keptRecords bounds rest := by
        simp
      rw [harr]
      by_cases hfull : batchSize ≤ (batch ++ [rec]).length
      · rw [if_pos hfull]
        rcases hp : insert_batch geomOk db (batch ++ [rec]) with ⟨db', n⟩
        dsimp only
        rw [insert_batch_eq] at hp
        rw [ih, insertAll_append geomOk db (batch ++ [rec]) (keptRecords bounds rest), hp]
        dsimp only
        simp only [List.nil_append, Prod.mk.injEq, true_and]
        exact ⟨by omega, trivial⟩
      · rw [if_neg hfull]
        rw [ih]

/-- Corollary of the master lemma at the entry point of
`import_csv_file` on a readable shard. -/
lemma import_csv_file_rows (geomOk : String → Bool) (db : DB) (rows : List Row)
    (bounds : Bounds) (batchSize : ℕ) :
    import_csv_file geomOk db (.rows rows) bounds batchSize =
      .ok ((insertAll geomOk db (keptRecords bounds rows)).1,
           (insertAll geomOk db (keptRecords bounds rows)).2,
           skipCount bounds rows) := by
  simp [import_csv_file, importLoop_spec]

lemma dbHasKey_append (db l : DB) (k : String) :
    dbHasKey (db ++ l) k = (dbHasKey db k || dbHasKey l k) := by
  simp [dbHasKey, List.any_append]

/-- A key already present stays present through the fallback fold. -/
lemma fallback_fold_keeps_key (geomOk : String → Bool) (k : String) :
    ∀ (recs : List Record) (st : DB × ℕ),
      dbHasKey st.1 k = true →
      dbHasKey (recs.foldl (fallbackStep geomOk) st).1 k = true := by
  intro recs
  induction recs with
  | nil => intro st h; exact h
  | cons r t ih =>
    intro st h
    simp only [List.foldl_cons]
    apply ih
    unfold fallbackStep insertOne
    by_cases hg : geomOk r.geometry = true
    · simp only [hg, if_true]
      by_cases hk : dbHasKey st.1 r.plus_code = true
      · simpa [hk]
      · simp only [Bool.not_eq_true] at hk
        simp [hk, dbHasKey_append, h]
    · simpa [hg]

/-- After the fallback fold, every record of the list whose geometry is
accepted has its key in the database. -/
lemma fallback_fold_key_present (geomOk : String → Bool) :
    ∀ (recs : List Record) (st : DB × ℕ) (r : Record),
      r ∈ recs → geomOk r.geometry = true →
      dbHasKey (recs.foldl (fallbackStep geomOk) st).1 r.plus_code = true := by
  intro recs
  induction recs with
  | nil => intro st r hr; exact absurd hr (List.not_mem_nil r)
  | cons a t ih =>
    intro st r hr hg
    rcases List.mem_cons.mp hr with rfl | hrt
    · simp only [List.foldl_cons]
      apply fallback_fold_keeps_key
      unfold fallbackStep insertOne
      simp only [hg, if_true]
      by_cases hk : dbHasKey st.1 r.plus_code = true
      · simp [hk]
      · simp only [Bool.not_eq_true] at hk
        simp only [hk, Bool.false_eq_true, if_false, dbHasKey_append]
        simp [dbHasKey]
    · simp only [List.foldl_cons]
      exact ih _ r hrt hg

/-- If every accepted-geometry record of the list already has its key
in the database, the insertion pass is a no-op: nothing is added and
the insert count is zero. -/
lemma insertAll_noop (geomOk : String → Bool) :
    ∀ (recs : List Record) (db : DB),
      (∀ r ∈ recs, geomOk r.geometry = true → dbHasKey db r.plus_code = true) →
      insertAll geomOk db recs = (db, 0) := by
  intro recs
  induction recs with
  | nil => intro db _; rfl
  | cons a t ih =>
    intro db h
    unfold insertAll
    simp only [List.foldl_cons]
    have hstep : fallbackStep geomOk (db, 0) a = (db, 0) := by
      unfold fallbackStep insertOne
      by_cases hg : geomOk a.geometry = true
      · simp [hg, h a (List.mem_cons_self a t) hg]
      · simp [hg]
    rw [hstep]
    exact ih db (fun r hr => h r (List.mem_cons_of_mem a hr))

/-- Inserting records that are all accepted, all fresh with respect to
the database, and pairwise distinct in key appends exactly those
records and counts every one of them. -/
lemma insertAll_fresh (geomOk : String → Bool) :
    ∀ (recs : List Record) (db : DB),
      (∀ r ∈ recs, geomOk r.geometry = true) →
      (∀ r ∈ recs, dbHasKey db r.plus_code = false) →
      recs.Pairwise (fun a c => a.plus_code ≠ c.plus_code) →
      insertAll geomOk db recs = (db ++ recs, recs.length) := by
  intro recs
  induction recs with
  | nil => intro db _ _ _; simp [insertAll]
  | cons a t ih =>
    intro db hgood hfresh hdist
    have hga : geomOk a.geometry = true := hgood a (List.mem_cons_self a t)
    have hka : dbHasKey db a.plus_code = false := hfresh a (List.mem_cons_self a t)
    unfold insertAll
    simp only [List.foldl_cons]
    have hstep : fallbackStep geomOk (db, 0) a = (db ++ [a], 1) := by
      unfold fallbackStep insertOne
      simp [hga, hka]
    rw [hstep]
    rw [fallback_fold_shift]
    have hrest : t.foldl (fallbackStep geomOk) (db ++ [a], 0) = (db ++ [a] ++ t, t.length) := by
      have := ih (db ++ [a])
        (fun r hr => hgood r (List.mem_cons_of_mem a hr))
        (fun r hr => by
          have h1 : dbHasKey db r.plus_code = false := hfresh r (List.mem_cons_of_mem a hr)
          have h2 : a.plus_code ≠ r.plus_code := (List.pairwise_cons.mp hdist).1 r hr
          have h3 : dbHasKey [a] r.plus_code = false := by
            simp [dbHasKey, h2]
          simp [dbHasKey_append, h1, h3])
        (List.pairwise_cons.mp hdist).2
      simpa [insertAll] using this
    rw [hrest]
    simp [Nat.add_comm]

/-- The insertion pass never counts more rows than it was given. -/
lemma insertAll_count_le (geomOk : String → Bool) :
    ∀ (recs : List Record) (db : DB),
      (insertAll geomOk db recs).2 ≤ recs.length := by
  intro recs
  induction recs with
  | nil => intro db; simp [insertAll]
  | cons a t ih =>
    intro db
    unfold insertAll
    simp only [List.foldl_cons]
    rcases hstep : fallbackStep geomOk ((db : DB), (0 : ℕ)) a with ⟨db1, n1⟩
    have hn1 : n1 ≤ 1 := by
      unfold fallbackStep insertOne at hstep
      by_cases hg : geomOk a.geometry = true
      · by_cases hk : dbHasKey db a.plus_code = true
        · simp [hg, hk] at hstep
          omega
        · simp only [Bool.not_eq_true] at hk
          simp [hg, hk] at hstep
          omega
      · simp [hg] at hstep
        omega
    rw [fallback_fold_shift]
    have := ih db1
    unfold insertAll at this
    simp only [List.length_cons]
    omega

/-- Every row is classified exactly once: kept records and skip counts
partition the stream. -/
lemma kept_skip_length (bounds : Bounds) :
    ∀ rows : List Row,
      (keptRecords bounds rows).length + skipCount bounds rows = rows.length := by
  intro rows
  induction rows with
  | nil => simp [keptRecords, skipCount]
  | cons row rest ih =>
    cases hclass : classifyRow bounds row with
    | skip =>
      simp only [keptRecords, skipCount, List.filterMap_cons, List.countP_cons, hclass] at *
      simp only [List.length_cons]
      simp [hclass]
      omega
    | keep rec =>
      simp only [keptRecords, skipCount, List.filterMap_cons, List.countP_cons, hclass] at *
      simp only [List.length_cons]
      simp [hclass]
      omega

/-! ### Claims -/

/-- Claim C3, corrected.  The code does not tally row-level insert
failures (or conflict-absorbed duplicates) as skipped, so
`inserted + skipped` can fall short of the rows processed; what does
hold is the inequality `inserted + skipped ≤ processed`. -/
theorem claim_C3 (geomOk : String → Bool) (db db' : DB) (rows : List Row)
    (bounds : Bounds) (batchSize : ℕ) (i s : ℕ)
    (h : import_csv_file geomOk db (.rows rows) bounds batchSize = .ok (db', i, s)) :
    i + s ≤ rows.length := by
  rw [import_csv_file_rows] at h
  simp only [Except.ok.injEq, Prod.mk.injEq] at h
  obtain ⟨-, hi, hs⟩ := h
  have h1 := insertAll_count_le geomOk (keptRecords bounds rows) db
  have h2 := kept_skip_length bounds rows
  omega

/-- Witness for C3: a single out-of-bounds row gives
`inserted = 0, skipped = 1`, and `0 + 1 ≤ 1`. -/
theorem claim_C3_witness : (0 : ℕ) + 1 ≤ ([rowOutOfBounds] : List Row).length :=
  claim_C3 geomOkExceptBAD [] [] [rowOutOfBounds] testBounds 5000 0 1 (by rfl)

/-- Counterexample to C3 as stated: one processed row whose geometry
the database rejects ends up in neither count — the import reports
`(inserted, skipped) = (0, 0)` for one processed row, so
`inserted + skipped ≠ processed`. -/
theorem claim_C3_counterexample :
    importCounts geomOkExceptBAD [] (.rows [rowBadGeom]) testBounds 5000 = some (0, 0) ∧
    (0 : ℕ) + 0 ≠ ([rowBadGeom] : List Row).length := by
  exact ⟨by decide, by decide⟩

/-- Claim C4, confirmed (with the uniqueness constraint modelled from
the spec, the migration being outside `src/`): running
`import_csv_file` a second time over the same shard against the
database state left by the first run inserts zero additional rows,
leaves the database unchanged, and reports the same skipped count. -/
theorem claim_C4 (geomOk : String → Bool) (bounds : Bounds) (batchSize : ℕ)
    (db db1 db2 : DB) (rows : List Row) (i1 s1 i2 s2 : ℕ)
    (h1 : import_csv_file geomOk db (.rows rows) bounds batchSize = .ok (db1, i1, s1))
    (h2 : import_csv_file geomOk db1 (.rows rows) bounds batchSize = .ok (db2, i2, s2)) :
    i2 = 0 ∧ db2 = db1 ∧ s2 = s1 := by
  rw [import_csv_file_rows] at h1 h2
  simp only [Except.ok.injEq, Prod.mk.injEq] at h1 h2
  obtain ⟨hdb1, -, hs1⟩ := h1
  obtain ⟨hdb2, hi2, hs2⟩ := h2
  have hnoop : insertAll geomOk db1 (keptRecords bounds rows) = (db1, 0) := by
    apply insertAll_noop
    intro r hr hg
    rw [← hdb1]
    exact fallback_fold_key_present geomOk (keptRecords bounds rows) (db, 0) r hr hg
  rw [hnoop] at hdb2 hi2
  exact ⟨hi2.symm, hdb2.symm, by omega⟩

/-- Witness for C4: the one-good-row shard loaded twice — the second
run inserts nothing and changes nothing. -/
theorem claim_C4_witness :
    (0 : ℕ) = 0 ∧ ([recGood] : DB) = [recGood] ∧ (0 : ℕ) = (0 : ℕ) :=
  claim_C4 geomOkExceptBAD testBounds 5000 [] [recGood] [recGood] [rowGood]
    1 0 0 0 (by rfl) (by rfl)

/-- Claim C5, confirmed: a kept record's parsed centroid always
satisfies the four inclusive bound comparisons; a parsed centroid that
fails `is_in_bounds` makes the row a skip; and the reader loop's
skipped tally counts exactly the skip-classified rows. -/
theorem claim_C5 :
    (∀ (bounds : Bounds) (row : Row) (rec : Record),
        classifyRow bounds row = .keep rec →
        ∃ lat lon,
          floatParse row.latitude = some lat ∧ floatParse row.longitude = some lon ∧
          bounds.min_lat ≤ lat ∧ lat ≤ bounds.max_lat ∧
          bounds.min_lon ≤ lon ∧ lon ≤ bounds.max_lon) ∧
    (∀ (bounds : Bounds) (row : Row) (lat lon : ℚ),
        floatParse row.latitude = some lat → floatParse row.longitude = some lon →
        is_in_bounds lat lon bounds = false →
        classifyRow bounds row = .skip) ∧
    (∀ (geomOk : String → Bool) (bounds : Bounds) (batchSize : ℕ) (db : DB)
        (rows : List Row),
        (importLoop geomOk bounds batchSize db rows [] 0 0).2.2 = skipCount bounds rows) := by
  refine ⟨?_, ?_, ?_⟩
  · intro bounds row rec h
    unfold classifyRow at h
    cases hlat : floatParse row.latitude with
    | none => simp [hlat] at h
    | some lat =>
      cases hlon : floatParse row.longitude with
      | none => simp [hlat, hlon] at h
      | some lon =>
        simp only [hlat, hlon] at h
        by_cases hb : is_in_bounds lat lon bounds = true
        · have hprops := of_decide_eq_true (by simpa [is_in_bounds] using hb)
          exact ⟨lat, lon, rfl, rfl, hprops.1, hprops.2.1, hprops.2.2.1, hprops.2.2.2⟩
        · simp [hb] at h
  · intro bounds row lat lon hlat hlon hb
    unfold classifyRow
    simp [hlat, hlon, hb]
  · intro geomOk bounds batchSize db rows
    rw [importLoop_spec]
    simp

/-- Witness for C5: the row sitting exactly on the `min_lat` and
`max_lon` edges is kept, exhibiting the inclusive comparison on the
boundary. -/
theorem claim_C5_witness :
    ∃ lat lon,
      floatParse rowOnEdge.latitude = some lat ∧
      floatParse rowOnEdge.longitude = some lon ∧
      testBounds.min_lat ≤ lat ∧ lat ≤ testBounds.max_lat ∧
      testBounds.min_lon ≤ lon ∧ lon ≤ testBounds.max_lon :=
  claim_C5.1 testBounds rowOnEdge
    ⟨"POLYGON((2 2,3 2,3 3,2 2))", "PLUSD", none, none⟩ (by decide)

/-- A database key is absent exactly when no stored record carries it. -/
lemma dbHasKey_eq_false_iff (db : DB) (k : String) :
    dbHasKey db k = false ↔ ∀ r ∈ db, r.plus_code ≠ k := by
  simp [dbHasKey]

/-- Claim C1, corrected.  A batch holding one rejected geometry among
`N` accepted, fresh, pairwise-distinct-keyed records makes the bulk
statement fail; the rollback and per-record fallback then insert
exactly the `N` good records (never 0) — but the failing record is
dropped without touching the skipped tally, which counts only the
reader loop's parse/bounds/empty-geometry skips. -/
theorem claim_C1 (geomOk : String → Bool) (db : DB) (pre post : List Record)
    (bad : Record)
    (hgood : ∀ r ∈ pre ++ post, geomOk r.geometry = true)
    (hbad : geomOk bad.geometry = false)
    (hfresh : ∀ r ∈ pre ++ post, dbHasKey db r.plus_code = false)
    (hdist : (pre ++ post).Pairwise (fun a c => a.plus_code ≠ c.plus_code)) :
    insert_batch geomOk db (pre ++ bad :: post) =
      (db ++ (pre ++ post), (pre ++ post).length) ∧
    ∀ (bounds : Bounds) (db₀ : DB) (rows : List Row) (batchSize : ℕ),
      (importLoop geomOk bounds batchSize db₀ rows [] 0 0).2.2 = skipCount bounds rows := by
  have hpairs := List.pairwise_append.mp hdist
  constructor
  · rw [insert_batch_eq]
    have hpre : insertAll geomOk db pre = (db ++ pre, pre.length) :=
      insertAll_fresh geomOk pre db
        (fun r hr => hgood r (List.mem_append_left post hr))
        (fun r hr => hfresh r (List.mem_append_left post hr))
        hpairs.1
    have hpost : insertAll geomOk (db ++ pre) post =
        (db ++ pre ++ post, post.length) :=
      insertAll_fresh geomOk post (db ++ pre)
        (fun r hr => hgood r (List.mem_append_right pre hr))
        (fun r hr => by
          have h1 : dbHasKey db r.plus_code = false :=
            hfresh r (List.mem_append_right pre hr)
          have h2 : dbHasKey pre r.plus_code = false :=
            (dbHasKey_eq_false_iff pre r.plus_code).mpr
              (fun a ha => hpairs.2.2 a ha r hr)
          simp [dbHasKey_append, h1, h2])
        hpairs.2.1
    unfold insertAll at hpre hpost ⊢
    rw [List.foldl_append, hpre]
    simp only [List.foldl_cons]
    have hskipbad : fallbackStep geomOk (db ++ pre, pre.length) bad =
        (db ++ pre, pre.length) := by
      unfold fallbackStep
      simp [hbad]
    rw [hskipbad, fallback_fold_shift, hpost]
    simp [List.append_assoc]
  · intro bounds db₀ rows batchSize
    rw [importLoop_spec]
    simp

/-- Witness for C1: one rejected geometry between two good fresh
records — the fallback inserts both good records and counts 2, and the
skipped tally of an import is untouched by insert failures. -/
theorem claim_C1_witness :
    insert_batch geomOkExceptBAD [] ([recGood] ++ recBadGeom :: [recOther]) =
      ([] ++ ([recGood] ++ [recOther]), ([recGood] ++ [recOther]).length) ∧
    (importLoop geomOkExceptBAD testBounds 5000 [] [rowGood, rowBadGeom] [] 0 0).2.2 =
      skipCount testBounds [rowGood, rowBadGeom] := by
  have h := claim_C1 geomOkExceptBAD [] [recGood] [recOther] recBadGeom
    (by decide) (by decide) (by decide) (by decide)
  exact ⟨h.1, h.2 testBounds [] [rowGood, rowBadGeom] 5000⟩

/-- Counterexample to C1 as stated: a two-row batch with one bad
geometry among one valid record yields `inserted = 1` but
`skipped = 0`, not the claimed 1 skipped — the failing record is
counted nowhere. -/
theorem claim_C1_counterexample :
    importCounts geomOkExceptBAD [] (.rows [rowGood, rowBadGeom]) testBounds 5000 =
      some (1, 0) ∧
    some ((1 : ℕ), (0 : ℕ)) ≠ some ((1 : ℕ), (1 : ℕ)) := by
  exact ⟨by decide, by decide⟩

/-- Claim C2, corrected.  A whole-file decompression error is indeed
raised to the caller from the shard stream, but it is not handled at
the country level: the orchestrator's per-file loop has no exception
handler, so one corrupt shard aborts the processing of every remaining
cell (and the final totals) instead of being logged and skipped. -/
theorem claim_C2 :
    (∀ (geomOk : String → Bool) (db : DB) (bounds : Bounds) (batchSize : ℕ),
        import_csv_file geomOk db .corrupt bounds batchSize = .error .corruptShard) ∧
    (∀ (geomOk : String → Bool) (bounds : Bounds) (db : DB) (f : ShardFile)
        (rest : List ShardFile),
        f.present = true → f.size ≠ 0 → f.data = .corrupt →
        mainImportFiles geomOk bounds db (f :: rest) = .error .corruptShard) := by
  constructor
  · intro geomOk db bounds batchSize
    rfl
  · intro geomOk bounds db f rest hpresent hsize hdata
    rw [mainImportFiles]
    rw [if_neg (by simp [hpresent, hsize])]
    rw [hdata]
    rfl

/-- Witness for C2: a present, non-empty, corrupt shard file aborts
the orchestrator loop with the decompression error. -/
theorem claim_C2_witness :
    mainImportFiles geomOkExceptBAD testBounds [] [corruptShardFile] =
      .error .corruptShard ∧
    import_csv_file geomOkExceptBAD [] .corrupt testBounds 5000 =
      .error .corruptShard :=
  ⟨claim_C2.2 geomOkExceptBAD testBounds [] corruptShardFile [] rfl (by decide) rfl,
   claim_C2.1 geomOkExceptBAD [] testBounds 5000⟩

/-- Counterexample to C2 as stated: with a corrupt shard first and a
healthy shard second, the run aborts with the decompression error and
never processes the healthy shard — even though that shard alone would
have imported its row.  Processing does not continue with the next
cell. -/
theorem claim_C2_counterexample :
    mainImportFiles geomOkExceptBAD testBounds [] [corruptShardFile, goodShardFile] =
      .error .corruptShard ∧
    mainImportFiles geomOkExceptBAD testBounds [] [goodShardFile] =
      .ok ([recGood], 1, 0) := by
  exact ⟨by rfl, by rfl⟩

/-- Claim C6, corrected.  `compute_s2_cells_for_bounds` performs no
degeneracy check and has no failure path of its own: a zero-area box
is handed to the covering library exactly like any other box, and the
library's covering is returned. -/
theorem claim_C6 (cover : Bounds → ℕ → List String) (bounds : Bounds) (level : ℕ)
    (_hdeg : bounds.min_lat = bounds.max_lat ∨ bounds.min_lon = bounds.max_lon) :
    compute_s2_cells_for_bounds true cover bounds level = cover bounds level := by
  simp [compute_s2_cells_for_bounds]

/-- Witness for C6: the degenerate box with `min_lat = max_lat` is
processed like any other box. -/
theorem claim_C6_witness :
    compute_s2_cells_for_bounds true coverSingle degenerateBounds 4 =
      coverSingle degenerateBounds 4 :=
  claim_C6 coverSingle degenerateBounds 4 (Or.inl rfl)

/-- Counterexample to C6 as stated: on a zero-area box
(`min_lat = max_lat = 1`) the selector does not fail with
`UnsupportedGeometry` — no such error exists in the code — but
silently returns the library's (here single-cell) covering. -/
theorem claim_C6_counterexample :
    compute_s2_cells_for_bounds true coverSingle degenerateBounds 4 = ["0001"] := by
  rfl

/-- Claim C7, corrected.  The selector itself returns the empty list
when the covering library is missing (lines 75-76); the fail-fast
lives one level up: `get_country_config` raises the missing-capability
error before ever calling the selector, so the orchestrator never
proceeds with zero cells when the library is absent. -/
theorem claim_C7 (cover : Bounds → ℕ → List String)
    (configs : List (String × CountryEntry)) (country_code : String)
    (entry : CountryEntry)
    (hlookup : configs.lookup (pyUpper country_code) = some entry) :
    get_country_config false cover configs country_code = .error .missingCapability ∧
    compute_s2_cells_for_bounds false cover entry.bounds 4 = [] := by
  constructor
  · unfold get_country_config
    dsimp only
    rw [hlookup]
    simp
  · rfl

/-- Witness for C7: resolving a configured country code (lower-case on
input, upper-cased by the function) without the library fails fast,
while the bare selector gives the empty list. -/
theorem claim_C7_witness :
    get_country_config false coverSingle [("UGA", ugandaEntry)] "uga" =
      .error .missingCapability ∧
    compute_s2_cells_for_bounds false coverSingle ugandaEntry.bounds 4 = [] :=
  claim_C7 coverSingle [("UGA", ugandaEntry)] "uga" ugandaEntry (by decide)

/-- Counterexample to C7 as stated: with the library flag off, the
selector returns the empty cell list to its caller instead of failing
with a missing-capability error. -/
theorem claim_C7_counterexample :
    compute_s2_cells_for_bounds false coverSingle testBounds 4 = [] := by
  rfl

/-- Claim C8, confirmed: when the destination scratch file exists and
is non-empty, `download_file` reports success without touching the
network, whatever the network would have answered, and the file on
disk is exactly the one that was already there. -/
theorem claim_C8 (dest : ScratchFile) (net : NetResult)
    (hpresent : dest.present = true) (hsize : 0 < dest.content.length) :
    download_file dest net = ⟨true, dest, false⟩ := by
  unfold download_file
  rw [if_pos ⟨hpresent, hsize⟩]

/-- Witness for C8: an existing two-byte file is reported successful
with no network access even when the remote would 404. -/
theorem claim_C8_witness :
    download_file existingFile .notFound = ⟨true, existingFile, false⟩ :=
  claim_C8 existingFile .notFound rfl (by decide)

/-- Claim C10, confirmed: a mid-stream download failure leaves the
partially written chunks on disk with a `False` result, and because
the skip test only checks existence and non-emptiness, every later
fetch of the same cell reports success without network access and
leaves the truncated file exactly as it is. -/
theorem claim_C10 (dest : ScratchFile) (chunks : List (List ℕ)) (k : ℕ)
    (net2 : NetResult)
    (hnew : dest.present = false ∨ dest.content.length = 0)
    (hnonempty : 0 < ((chunks.take k).flatten).length) :
    download_file dest (.body chunks (some k)) =
      ⟨false, ⟨true, (chunks.take k).flatten⟩, true⟩ ∧
    download_file ⟨true, (chunks.take k).flatten⟩ net2 =
      ⟨true, ⟨true, (chunks.take k).flatten⟩, false⟩ := by
  constructor
  · unfold download_file
    rw [if_neg (by rcases hnew with h | h <;> simp [h])]
  · unfold download_file
    rw [if_pos ⟨rfl, hnonempty⟩]

/-- Witness for C10: a download of two chunks dying after the first
leaves `[1]` on disk; the next fetch (here facing a 404 it never
issues) reports the file as already present and unchanged. -/
theorem claim_C10_witness :
    download_file ⟨false, []⟩ (.body [[1], [2, 3]] (some 1)) =
      ⟨false, ⟨true, ([[1], [2, 3]].take 1).flatten⟩, true⟩ ∧
    download_file ⟨true, ([[1], [2, 3]].take 1).flatten⟩ .notFound =
      ⟨true, ⟨true, ([[1], [2, 3]].take 1).flatten⟩, false⟩ :=
  claim_C10 ⟨false, []⟩ [[1], [2, 3]] 1 .notFound (Or.inl rfl) (by decide)

end GoogleBuildings

namespace GenerateRegions

/-! ### Lemmas about the circle generator -/

lemma circleRing_eq (ops : NumericOps) (clon clat rkm : ℚ) (n : ℕ) :
    circleRing ops clon clat rkm n =
      (List.range n).map (circlePoint ops clon clat (km_to_degrees ops rkm clat) n) ++
      [((List.range n).map (circlePoint ops clon clat (km_to_degrees ops rkm clat) n)).headI] :=
  rfl

/-- The ring has one point per loop iteration plus the closing point. -/
lemma circleRing_length (ops : NumericOps) (clon clat rkm : ℚ) (n : ℕ) :
    (circleRing ops clon clat rkm n).length = n + 1 := by
  rw [circleRing_eq]
  simp

/-- For a positive point count the ring is closed: its first
coordinate pair equals its last. -/
lemma circleRing_closed (ops : NumericOps) (clon clat rkm : ℚ) (n : ℕ)
    (hn : 0 < n) :
    (circleRing ops clon clat rkm n).head? = (circleRing ops clon clat rkm n).getLast? := by
  rw [circleRing_eq]
  have hne : (List.range n).map (circlePoint ops clon clat (km_to_degrees ops rkm clat) n) ≠ [] := by
    simp
    omega
  rw [List.getLast?_concat, List.head?_append_of_ne_nil _ hne]
  obtain ⟨a, t, heq⟩ := List.exists_cons_of_ne_nil hne
  rw [heq]
  simp [List.headI]

/-- Before the closing point, the ring's `i`-th pair is the `i`-th
circle point. -/
lemma circleRing_get (ops : NumericOps) (clon clat rkm : ℚ) (n i : ℕ)
    (hi : i < n) :
    (circleRing ops clon clat rkm n)[i]? =
      some (circlePoint ops clon clat (km_to_degrees ops rkm clat) n i) := by
  rw [circleRing_eq]
  rw [List.getElem?_append_left (by simpa using hi)]
  simp [List.getElem?_range hi]

/-- Claim C9, confirmed: for the Kampala region (center
`(32.5825, 0.3476)`, radius 35 km) the generated ring is closed, has
33 coordinate pairs (32 distinct plus the closing point), and each of
the 32 loop points offsets the center latitude by
`radius_deg * sin(angle) * 0.9` — the fixed vertical compression —
and the longitude by `radius_deg * cos(angle)`, the angle being the
turn fraction `i/32`. -/
theorem claim_C9 (ops : NumericOps) :
    (circleRing ops (13033/400) (869/2500) 35 32).length = 33 ∧
    (circleRing ops (13033/400) (869/2500) 35 32).head? =
      (circleRing ops (13033/400) (869/2500) 35 32).getLast? ∧
    ∀ i : ℕ, i < 32 →
      (circleRing ops (13033/400) (869/2500) 35 32)[i]? =
        some [ops.round6 (13033/400 +
                km_to_degrees ops 35 (869/2500) * ops.cosTurn ((i : ℚ) / 32)),
              ops.round6 (869/2500 +
                km_to_degrees ops 35 (869/2500) * ops.sinTurn ((i : ℚ) / 32) * (9/10))] := by
  refine ⟨circleRing_length ops _ _ _ 32, circleRing_closed ops _ _ _ 32 (by omega), ?_⟩
  intro i hi
  rw [circleRing_get ops _ _ _ 32 i hi]
  simp [circlePoint]

/-- Witness for C9: the concrete identity-capability instantiation,
sampled at the first loop point. -/
theorem claim_C9_witness :
    (circleRing idOps (13033/400) (869/2500) 35 32).length = 33 ∧
    (circleRing idOps (13033/400) (869/2500) 35 32)[5]? =
      some [idOps.round6 (13033/400 +
              km_to_degrees idOps 35 (869/2500) * idOps.cosTurn ((5 : ℚ) / 32)),
            idOps.round6 (869/2500 +
              km_to_degrees idOps 35 (869/2500) * idOps.sinTurn ((5 : ℚ) / 32) * (9/10))] :=
  ⟨(claim_C9 idOps).1, by
    have h := (claim_C9 idOps).2.2 5 (by omega)
    simpa using h⟩

end GenerateRegions

